import Mathlib

/-!
Shallow embedding of the core of the `evap-crit-PIC11` repository:
the thermodynamic property helpers (`thermodynamique.py`), the
multi-effect evaporator train (`evaporateurs.py`) and the batch
crystallizer (`cristallisation.py`), together with theorems settling
the frozen specification claims.
-/

set_option linter.unusedVariables false

/- ## Thermodynamic property functions (`thermodynamique.py`) -/

/-- Embeds `lmtd` from `thermodynamique.py`, with its `eps` parameter explicit
(scalar instantiation of the array-robust Python code).
Branches, in source order: either ΔT ≤ 0 ⇒ 0; |ΔT1-ΔT2| < eps ⇒ ΔT1;
otherwise `(dT1 - dT2) / log ((dT1 + eps) / (dT2 + eps))`. -/
noncomputable def lmtd_eps (dT1 dT2 eps : ℝ) : ℝ :=
  if dT1 ≤ 0 ∨ dT2 ≤ 0 then 0
  else if |dT1 - dT2| < eps then dT1
  else (dT1 - dT2) / Real.log ((dT1 + eps) / (dT2 + eps))

/-- Embeds `lmtd` with its default `eps = 1e-12`. -/
noncomputable def lmtd (dT1 dT2 : ℝ) : ℝ := lmtd_eps dT1 dT2 1e-12

/-- Embeds `Tsat_from_Pbar` from `thermodynamique.py`:
`100 + 45*log(max(P, 0.05))`. -/
noncomputable def Tsat_from_Pbar (Pbar : ℝ) : ℝ :=
  100 + 45 * Real.log (max Pbar 0.05)

/-- Embeds `lambda_vapeur` from `thermodynamique.py`:
`max(2257000 - 3500*(Tsat - 100), 1800000)`. -/
noncomputable def lambda_vapeur (Tsat : ℝ) : ℝ :=
  max (2257000 - 3500 * (Tsat - 100)) 1800000

/- Basic bounds used repeatedly: `Real.log (max P 0.05) > -3`
because `exp 3 > 20 = 1 / 0.05`. -/

lemma twenty_lt_exp_three : (20 : ℝ) < Real.exp 3 := by
  have h1 : (2.7182818283 : ℝ) < Real.exp 1 := Real.exp_one_gt_d9
  have h3 : Real.exp 1 ^ (3 : ℕ) = Real.exp 3 := by
    rw [← Real.exp_nat_mul]; norm_num
  have hp : (2.7182818283 : ℝ) ^ (3 : ℕ) < Real.exp 1 ^ (3 : ℕ) := by
    apply pow_lt_pow_left₀ h1 (by norm_num)
    norm_num
  calc (20 : ℝ) < (2.7182818283 : ℝ) ^ (3 : ℕ) := by norm_num
    _ < Real.exp 1 ^ (3 : ℕ) := hp
    _ = Real.exp 3 := h3

lemma neg_three_lt_log_clamp (P : ℝ) : (-3 : ℝ) < Real.log (max P 0.05) := by
  have h5 : (0.05 : ℝ) ≤ max P 0.05 := le_max_right _ _
  have hpos : (0 : ℝ) < max P 0.05 := lt_of_lt_of_le (by norm_num) h5
  have : (-3 : ℝ) < Real.log 0.05 := by
    rw [Real.lt_log_iff_exp_lt (by norm_num : (0:ℝ) < 0.05)]
    have h20 := twenty_lt_exp_three
    have hexp3 : (0 : ℝ) < Real.exp 3 := Real.exp_pos 3
    rw [show ((-3 : ℝ)) = -(3:ℝ) by norm_num, Real.exp_neg]
    rw [inv_lt_iff_one_lt_mul₀ hexp3]
    nlinarith
  calc (-3 : ℝ) < Real.log 0.05 := this
    _ ≤ Real.log (max P 0.05) := Real.log_le_log (by norm_num) h5

lemma one_lt_log_fifty : (1 : ℝ) < Real.log 50 := by
  rw [← Real.log_exp 1]
  apply Real.log_lt_log (Real.exp_pos 1)
  have := Real.exp_one_lt_d9
  linarith

/- ## Claim C7: the `lmtd` branch behavior -/

lemma lmtd_of_nonpos (a b : ℝ) (h : a ≤ 0 ∨ b ≤ 0) : lmtd a b = 0 := by
  unfold lmtd lmtd_eps
  simp [h]

lemma lmtd_of_close (a b : ℝ) (ha : 0 < a) (hb : 0 < b)
    (h : |a - b| < 1e-12) : lmtd a b = a := by
  unfold lmtd lmtd_eps
  rw [if_neg, if_pos h]
  push_neg
  exact ⟨ha, hb⟩

lemma lmtd_of_far (a b : ℝ) (ha : 0 < a) (hb : 0 < b)
    (h : 1e-12 ≤ |a - b|) :
    lmtd a b = (a - b) / Real.log ((a + 1e-12) / (b + 1e-12)) := by
  unfold lmtd lmtd_eps
  rw [if_neg, if_neg (not_lt.mpr h)]
  push_neg
  exact ⟨ha, hb⟩

/-- C7 (amended): `lmtd` returns 0 when either input is ≤ 0; returns the
first input when the two inputs agree to within `1e-12` (in particular
`lmtd 5 5 = 5`, not NaN); and otherwise returns the eps-regularized
log-mean `(dT1 - dT2) / log ((dT1 + 1e-12) / (dT2 + 1e-12))`. -/
theorem C7_lmtd_branches :
    (∀ a b : ℝ, a ≤ 0 ∨ b ≤ 0 → lmtd a b = 0) ∧
    (∀ a b : ℝ, 0 < a → 0 < b → |a - b| < 1e-12 → lmtd a b = a) ∧
    lmtd 5 5 = 5 ∧
    (∀ a b : ℝ, 0 < a → 0 < b → 1e-12 ≤ |a - b| →
      lmtd a b = (a - b) / Real.log ((a + 1e-12) / (b + 1e-12))) := by
  refine ⟨lmtd_of_nonpos, lmtd_of_close, ?_, lmtd_of_far⟩
  have := lmtd_of_close 5 5 (by norm_num) (by norm_num) (by norm_num)
  simpa using this

/-- Witness for C7: the three branches evaluated at concrete inputs. -/
theorem C7_lmtd_branches_witness :
    lmtd (-1) 3 = 0 ∧ lmtd 5 5 = 5 ∧
    lmtd 2 1 = (2 - 1) / Real.log ((2 + 1e-12) / (1 + 1e-12)) := by
  obtain ⟨h1, h2, h3, h4⟩ := C7_lmtd_branches
  exact ⟨h1 (-1) 3 (Or.inl (by norm_num)), h3,
    h4 2 1 (by norm_num) (by norm_num) (by norm_num)⟩

/-- Counterexample for C7 as frozen: in the generic branch the code does
NOT return the exact standard log-mean formula `(dT1-dT2)/log(dT1/dT2)`;
the `1e-12` regularizer shifts the logarithm's argument. At `(1, 2)` the
two values differ. -/
theorem C7_counterexample :
    lmtd 1 2 ≠ (1 - 2) / Real.log ((1 : ℝ) / 2) := by
  have hval : lmtd 1 2 = (1 - 2) / Real.log ((1 + 1e-12) / (2 + 1e-12)) :=
    lmtd_of_far 1 2 (by norm_num) (by norm_num) (by norm_num)
  rw [hval]
  intro heq
  -- both logarithms are negative, and they are distinct
  have harg1 : ((1 : ℝ) + 1e-12) / (2 + 1e-12) < 1 := by
    rw [div_lt_one (by norm_num)]; norm_num
  have harg1pos : (0 : ℝ) < (1 + 1e-12) / (2 + 1e-12) := by positivity
  have hlog1neg : Real.log ((1 + 1e-12) / (2 + 1e-12)) < 0 :=
    Real.log_neg harg1pos harg1
  have hlt : Real.log ((1 : ℝ) / 2) < Real.log ((1 + 1e-12) / (2 + 1e-12)) := by
    apply Real.log_lt_log (by norm_num)
    rw [div_lt_div_iff₀ (by norm_num) (by norm_num)]
    norm_num
  have hne1 : Real.log ((1 + 1e-12) / (2 + 1e-12)) ≠ 0 := ne_of_lt hlog1neg
  have hne2 : Real.log ((1 : ℝ) / 2) ≠ 0 := ne_of_lt (lt_trans hlt hlog1neg)
  rw [div_eq_div_iff hne1 hne2] at heq
  linarith

/- ## Evaporator train (`evaporateurs.py`) -/

/-- Modelled from the spec: `_Tsat_eau` in `evaporateurs.py` calls the
external CoolProp steam table (`PropsSI`), which is not code of this
repository. Per §1 the steam tables are "a pluggable property source"
whose §4.1 contract (monotone saturation temperature, clamped at a
pressure floor) is realized by the repository's own approximation
`Tsat_from_Pbar` (`thermodynamique.py`); we plug that source in. -/
noncomputable def Tsat_eau (P_bar : ℝ) : ℝ := Tsat_from_Pbar P_bar

/-- Modelled from the spec: `_chaleur_latente_bar` in `evaporateurs.py`
is a CoolProp lookup (latent heat at pressure), external to the
repository. Per §4.1 (`latent_heat`: positive, decreasing with
pressure, floored away from 0) we plug in the repository's own
approximation `lambda_vapeur` evaluated at the modelled saturation
temperature. -/
noncomputable def chaleur_latente_bar (P_bar : ℝ) : ℝ :=
  lambda_vapeur (Tsat_from_Pbar P_bar)

/-- Embeds `_EPE_duhring` from `evaporateurs.py`: boiling point elevation (°C)
of sucrose solution at mass fraction `xm`, with a coefficient switch at
50 % solids. -/
noncomputable def EPE_duhring (xm : ℝ) : ℝ :=
  let x := xm * 100
  if x < 50 then 0.03 * x + 0.00015 * x * x
  else 0.045 * x + 0.00030 * x * x

/-- Embeds `_Teb_solution` from `evaporateurs.py`. -/
noncomputable def Teb_solution (P_bar xm : ℝ) : ℝ :=
  Tsat_eau P_bar + EPE_duhring xm

namespace Evap

/-- The constructor inputs of `EvaporateurMultiple`. -/
structure In where
  F : ℝ
  xF : ℝ
  xout : ℝ
  Tfeed : ℝ
  Psteam : ℝ
  n : ℕ

/-- The conditions that `EvaporateurMultiple.__init__` enforces. -/
def valide (e : In) : Prop :=
  2 ≤ e.n ∧ e.n ≤ 5 ∧ 0 < e.xF ∧ e.xF < 1 ∧ 0 < e.xout ∧ e.xout < 1 ∧
    e.xF < e.xout

/-- Embeds `EvaporateurMultiple.__init__`: validation, in source order; raising
is modelled as `Except.error` with the source's message. -/
noncomputable def mkEvap (F xF xout Tfeed Psteam : ℝ) (n : ℕ) :
    Except String In :=
  if ¬(2 ≤ n ∧ n ≤ 5) then
    Except.error "n_effets doit etre entre 2 et 5."
  else if ¬(0 < xF ∧ xF < 1 ∧ 0 < xout ∧ xout < 1) then
    Except.error "xF et xout doivent etre des fractions (0..1)."
  else if xout ≤ xF then
    Except.error "xout doit etre > xF (concentration augmente)."
  else
    Except.ok ⟨F, xF, xout, Tfeed, Psteam, n⟩

/-- Embeds `np.linspace(2.5, 0.15, n)`: per-effect pressure (bar abs). -/
noncomputable def P_eff (e : In) (i : ℕ) : ℝ :=
  2.5 - 2.35 * (i : ℝ) / ((e.n : ℝ) - 1)

/-- Embeds `U_base[:n]`: per-effect heat transfer coefficient (W/m²/K). -/
def U_eff (i : ℕ) : ℝ := [2500, 2200, 1800, 1600, 1500].getD i 0

/-- From `bilan_matiere`: outlet liquid `Lout = F*xF/xout`. -/
noncomputable def Lout (e : In) : ℝ := e.F * e.xF / e.xout

/-- From `bilan_matiere`: total vapor `Vtot = F - Lout`. -/
noncomputable def Vtot (e : In) : ℝ := e.F - Lout e

/-- From `bilan_matiere`: uniform vapor split `V = full(n, Vtot/n)`. -/
noncomputable def Vi (e : In) : ℝ := Vtot e / (e.n : ℝ)

/-- From `bilan_matiere`: liquid-flow recurrence
`L[0] = F - V[0]`, `L[i] = L[i-1] - V[i]`. -/
noncomputable def L (e : In) : ℕ → ℝ
  | 0 => e.F - Vi e
  | i + 1 => L e i - Vi e

/-- From `bilan_matiere`: mass-fraction recurrence
`x[0] = F*xF/L[0]`, `x[i] = x[i-1]*L[i-1]/L[i]`. -/
noncomputable def x (e : In) : ℕ → ℝ
  | 0 => e.F * e.xF / L e 0
  | i + 1 => x e i * L e i / L e (i + 1)

/-- From `simuler`: per-effect boiling temperature. -/
noncomputable def Teb (e : In) (i : ℕ) : ℝ := Teb_solution (P_eff e i) (x e i)

/-- From `simuler`: live steam temperature `Tsat(Psteam) + 10`. -/
noncomputable def Tsteam (e : In) : ℝ := Tsat_eau e.Psteam + 10

/-- From `simuler`: per-effect duty `Q[i] = (V[i]/3600) * lambda_i` (W). -/
noncomputable def Q (e : In) (i : ℕ) : ℝ :=
  Vi e / 3600 * chaleur_latente_bar (P_eff e i)

/-- From `simuler`: the raw driving temperature difference before the floor:
`Tsteam - Teb[0]` for the first effect, `Teb[i-1] - Teb[i]` after. -/
noncomputable def rawdT (e : In) (i : ℕ) : ℝ :=
  if i = 0 then Tsteam e - Teb e 0 else Teb e (i - 1) - Teb e i

/-- From `simuler`: the driving difference used, `dT = max(raw, 1.0)`. -/
noncomputable def dT (e : In) (i : ℕ) : ℝ := max (rawdT e i) 1

/-- From `simuler`: per-effect area `A[i] = Q[i] / (U[i] * dT)`. -/
noncomputable def A (e : In) (i : ℕ) : ℝ := Q e i / (U_eff i * dT e i)

/-- From `simuler`: total duty `Q_tot = sum(Q)` (W). -/
noncomputable def Qtot (e : In) : ℝ := ∑ i ∈ Finset.range e.n, Q e i

/-- From `simuler`: steam flow `S = Q_tot / lambda_steam * 3600` (kg/h). -/
noncomputable def S (e : In) : ℝ :=
  Qtot e / chaleur_latente_bar e.Psteam * 3600

/-- From `simuler`: total area `A_totale = sum(A)`. -/
noncomputable def A_totale (e : In) : ℝ := ∑ i ∈ Finset.range e.n, A e i

/-- From `simuler`: economy `E = Vtot / S if S > 0 else 0`. -/
noncomputable def E (e : In) : ℝ := if 0 < S e then Vtot e / S e else 0

/-- Follows the spec's words (§4.3 step 5 with the §4.1 guard), for
comparison with the source's `A`: the claimed area uses the log-mean
temperature difference between condensing and boiling temperature (both
"ends" of the exchange see the same difference, so the LMTD is taken of
the raw difference with itself) and yields zero area when that log-mean
is degenerate (≤ 0). -/
noncomputable def claimedArea (e : In) (i : ℕ) : ℝ :=
  let d := lmtd (rawdT e i) (rawdT e i)
  if d ≤ 0 then 0 else Q e i / (U_eff i * d)

end Evap

/- ## Claim C6: validation raises iff structurally invalid -/

/-- C6: `EvaporateurMultiple.__init__` succeeds (raises no error) if and
only if the inputs are structurally valid: effect count in 2..5, both
mass fractions strictly in (0,1), and outlet fraction above feed
fraction. -/
theorem C6_validation_iff (F xF xout Tfeed Psteam : ℝ) (n : ℕ) :
    (∃ c, Evap.mkEvap F xF xout Tfeed Psteam n = Except.ok c) ↔
      (2 ≤ n ∧ n ≤ 5 ∧ 0 < xF ∧ xF < 1 ∧ 0 < xout ∧ xout < 1 ∧
        xF < xout) := by
  unfold Evap.mkEvap
  split_ifs with h1 h2 h3 <;> simp_all

/- ## Mass-balance lemmas (`bilan_matiere`) -/

namespace Evap

lemma npos (e : In) (h : valide e) : (0 : ℝ) < (e.n : ℝ) := by
  have h2 := h.1
  have : (2 : ℝ) ≤ (e.n : ℝ) := by exact_mod_cast h2
  linarith

lemma Lout_pos (e : In) (h : valide e) (hF : 0 < e.F) : 0 < Lout e := by
  obtain ⟨-, -, hxF, -, hxo, -, -⟩ := h
  unfold Lout
  positivity

lemma Vtot_pos (e : In) (h : valide e) (hF : 0 < e.F) : 0 < Vtot e := by
  obtain ⟨-, -, hxF, -, hxo, -, hlt⟩ := h
  unfold Vtot Lout
  rw [sub_pos, div_lt_iff₀ hxo]
  nlinarith

lemma Vi_pos (e : In) (h : valide e) (hF : 0 < e.F) : 0 < Vi e :=
  div_pos (Vtot_pos e h hF) (npos e h)

lemma L_closed (e : In) : ∀ i, L e i = e.F - ((i : ℝ) + 1) * Vi e
  | 0 => by rw [L]; ring
  | i + 1 => by rw [L, L_closed e i]; push_cast; ring

lemma L_pos (e : In) (h : valide e) (hF : 0 < e.F) :
    ∀ i, i < e.n → 0 < L e i := by
  intro i hi
  rw [L_closed]
  have hn : (0 : ℝ) < (e.n : ℝ) := npos e h
  have hle : ((i : ℝ) + 1) ≤ (e.n : ℝ) := by exact_mod_cast hi
  have hV := Vtot_pos e h hF
  have h1 : ((i : ℝ) + 1) * Vi e ≤ Vtot e := by
    unfold Vi
    calc ((i : ℝ) + 1) * (Vtot e / (e.n : ℝ))
        ≤ (e.n : ℝ) * (Vtot e / (e.n : ℝ)) := by
          apply mul_le_mul_of_nonneg_right hle
          positivity
      _ = Vtot e := by field_simp
  have hLo := Lout_pos e h hF
  have : e.F - Vtot e = Lout e := by unfold Vtot; ring
  linarith

lemma L_decr (e : In) (h : valide e) (hF : 0 < e.F) (i : ℕ) :
    L e (i + 1) < L e i := by
  rw [show L e (i + 1) = L e i - Vi e from rfl]
  have := Vi_pos e h hF
  linarith

lemma x_closed (e : In) (h : valide e) (hF : 0 < e.F) :
    ∀ i, i < e.n → x e i = e.F * e.xF / L e i := by
  intro i
  induction i with
  | zero => intro _; rfl
  | succ i ih =>
    intro hi
    have hi' : i < e.n := Nat.lt_of_succ_lt hi
    have hL : L e i ≠ 0 := ne_of_gt (L_pos e h hF i hi')
    rw [x, ih hi', div_mul_cancel₀ _ hL]

lemma x_pos (e : In) (h : valide e) (hF : 0 < e.F) :
    ∀ i, i < e.n → 0 < x e i := by
  intro i hi
  rw [x_closed e h hF i hi]
  have hxF := h.2.2.1
  have := L_pos e h hF i hi
  positivity

lemma x_incr (e : In) (h : valide e) (hF : 0 < e.F) (i : ℕ)
    (hi : i + 1 < e.n) : x e i < x e (i + 1) := by
  have hi' : i < e.n := Nat.lt_of_succ_lt hi
  rw [x_closed e h hF i hi', x_closed e h hF (i + 1) hi]
  have hxF := h.2.2.1
  exact div_lt_div_of_pos_left (by nlinarith) (L_pos e h hF (i + 1) hi)
    (L_decr e h hF i)

end Evap

/- ## Claim C3: monotone liquid flows and mass fractions -/

/-- C3 (amended): for every input accepted by validation whose feed flow
is positive, the per-effect liquid flows strictly decrease, the
per-effect mass fractions strictly increase, and every stage's liquid
flow stays strictly positive. (With `F = 0`, which validation accepts,
all flows are 0 and the strict decrease fails.) -/
theorem C3_monotone_profiles (e : Evap.In) (h : Evap.valide e)
    (hF : 0 < e.F) :
    (∀ i, i + 1 < e.n → Evap.L e (i + 1) < Evap.L e i ∧
      Evap.x e i < Evap.x e (i + 1)) ∧
    (∀ i, i < e.n → 0 < Evap.L e i) := by
  refine ⟨fun i hi => ⟨Evap.L_decr e h hF i, Evap.x_incr e h hF i hi⟩,
    Evap.L_pos e h hF⟩

/-- Scenario A inputs: F=20000 kg/h, xF=0.15, xout=0.65, 3 effects,
steam at 3.5 bar abs. -/
def cfgA : Evap.In := ⟨20000, 0.15, 0.65, 25, 3.5, 3⟩

/-- A validation-accepted input with zero feed flow. -/
def cfgF0 : Evap.In := ⟨0, 0.15, 0.65, 25, 3.5, 3⟩

/-- Witness for C3: the amended claim applied to scenario A. -/
theorem C3_monotone_profiles_witness :
    (Evap.L cfgA 1 < Evap.L cfgA 0 ∧ Evap.x cfgA 0 < Evap.x cfgA 1) ∧
    0 < Evap.L cfgA 2 := by
  have h := C3_monotone_profiles cfgA
    (by refine ⟨?_, ?_, ?_, ?_, ?_, ?_, ?_⟩ <;> norm_num [cfgA])
    (by norm_num [cfgA])
  exact ⟨h.1 0 (by norm_num [cfgA]), h.2 2 (by norm_num [cfgA])⟩

/-- Counterexample for C3 as frozen: validation does not require a
positive feed flow; with `F = 0` (accepted by validation) every stage's
liquid flow is 0, so the flows do not strictly decrease. -/
theorem C3_counterexample :
    Evap.valide cfgF0 ∧ ¬(Evap.L cfgF0 1 < Evap.L cfgF0 0) := by
  constructor
  · refine ⟨?_, ?_, ?_, ?_, ?_, ?_, ?_⟩ <;> norm_num [cfgF0]
  · simp only [Evap.L, Evap.Vi, Evap.Vtot, Evap.Lout, cfgF0]
    norm_num

/- ## Latent-heat bounds and the economy formula -/

lemma chaleur_ge (P : ℝ) : 1800000 ≤ chaleur_latente_bar P :=
  le_max_right _ _

lemma chaleur_pos (P : ℝ) : 0 < chaleur_latente_bar P :=
  lt_of_lt_of_le (by norm_num) (chaleur_ge P)

lemma chaleur_le (P : ℝ) : chaleur_latente_bar P ≤ 2729500 := by
  unfold chaleur_latente_bar lambda_vapeur Tsat_from_Pbar
  have := neg_three_lt_log_clamp P
  apply max_le _ (by norm_num)
  nlinarith

namespace Evap

lemma sum_chaleur_le (e : In) :
    ∑ i ∈ Finset.range e.n, chaleur_latente_bar (P_eff e i) ≤
      (e.n : ℝ) * 2729500 := by
  calc ∑ i ∈ Finset.range e.n, chaleur_latente_bar (P_eff e i)
      ≤ ∑ _i ∈ Finset.range e.n, (2729500 : ℝ) :=
        Finset.sum_le_sum fun i _ => chaleur_le _
    _ = (e.n : ℝ) * 2729500 := by
        rw [Finset.sum_const, Finset.card_range]; ring

lemma sum_chaleur_ge (e : In) :
    (e.n : ℝ) * 1800000 ≤
      ∑ i ∈ Finset.range e.n, chaleur_latente_bar (P_eff e i) := by
  calc ((e.n : ℝ)) * 1800000
      = ∑ _i ∈ Finset.range e.n, (1800000 : ℝ) := by
        rw [Finset.sum_const, Finset.card_range]; ring
    _ ≤ ∑ i ∈ Finset.range e.n, chaleur_latente_bar (P_eff e i) :=
        Finset.sum_le_sum fun i _ => chaleur_ge _

lemma sum_chaleur_pos (e : In) (h : valide e) :
    0 < ∑ i ∈ Finset.range e.n, chaleur_latente_bar (P_eff e i) := by
  have h1 := sum_chaleur_ge e
  have h2 := npos e h
  nlinarith

lemma S_eq (e : In) :
    S e = Vi e * (∑ i ∈ Finset.range e.n, chaleur_latente_bar (P_eff e i)) /
      chaleur_latente_bar e.Psteam := by
  have hst : chaleur_latente_bar e.Psteam ≠ 0 := ne_of_gt (chaleur_pos _)
  unfold S Qtot Q
  rw [← Finset.mul_sum]
  field_simp
  ring

lemma S_pos (e : In) (h : valide e) (hF : 0 < e.F) : 0 < S e := by
  rw [S_eq]
  exact div_pos (mul_pos (Vi_pos e h hF) (sum_chaleur_pos e h))
    (chaleur_pos _)

lemma E_closed (e : In) (h : valide e) (hF : 0 < e.F) :
    E e = (e.n : ℝ) * chaleur_latente_bar e.Psteam /
      (∑ i ∈ Finset.range e.n, chaleur_latente_bar (P_eff e i)) := by
  have hS := S_pos e h hF
  have hVt := Vtot_pos e h hF
  have hn : (e.n : ℝ) ≠ 0 := ne_of_gt (npos e h)
  have hsum : (∑ i ∈ Finset.range e.n, chaleur_latente_bar (P_eff e i)) ≠ 0 :=
    ne_of_gt (sum_chaleur_pos e h)
  have hst : chaleur_latente_bar e.Psteam ≠ 0 := ne_of_gt (chaleur_pos _)
  rw [E, if_pos hS, S_eq]
  unfold Vi
  rw [div_div_eq_mul_div, eq_div_iff hsum]
  field_simp
  ring

lemma E_pos (e : In) (h : valide e) (hF : 0 < e.F) : 0 < E e := by
  rw [E, if_pos (S_pos e h hF)]
  exact div_pos (Vtot_pos e h hF) (S_pos e h hF)

lemma E_lt_two (e : In) (h : valide e) (hF : 0 < e.F) : E e < 2 := by
  rw [E_closed e h hF]
  have hn := npos e h
  have hsum := sum_chaleur_ge e
  have hst := chaleur_le e.Psteam
  have hden : (0 : ℝ) < (e.n : ℝ) * 1800000 := by nlinarith
  calc (e.n : ℝ) * chaleur_latente_bar e.Psteam /
        (∑ i ∈ Finset.range e.n, chaleur_latente_bar (P_eff e i))
      ≤ (e.n : ℝ) * 2729500 / ((e.n : ℝ) * 1800000) := by
        apply div_le_div₀ (by positivity) _ hden hsum
        nlinarith [chaleur_pos e.Psteam]
    _ = 2729500 / 1800000 := by
        rw [mul_div_mul_left _ _ (ne_of_gt hn)]
    _ < 2 := by norm_num

lemma S_le (e : In) (h : valide e) (hF : 0 < e.F) :
    S e ≤ Vtot e * 2729500 / 1800000 := by
  rw [S_eq]
  have hVi : 0 < Vi e := Vi_pos e h hF
  have hsum := sum_chaleur_le e
  have hst := chaleur_ge e.Psteam
  have hn : (e.n : ℝ) ≠ 0 := ne_of_gt (npos e h)
  have hVin : Vi e * ((e.n : ℝ) * 2729500) = Vtot e * 2729500 := by
    unfold Vi
    field_simp
    ring
  calc Vi e * (∑ i ∈ Finset.range e.n, chaleur_latente_bar (P_eff e i)) /
        chaleur_latente_bar e.Psteam
      ≤ Vi e * ((e.n : ℝ) * 2729500) / 1800000 := by
        apply div_le_div₀ (by positivity) _ (by norm_num) hst
        exact mul_le_mul_of_nonneg_left hsum (le_of_lt hVi)
    _ = Vtot e * 2729500 / 1800000 := by rw [hVin]

end Evap

/- ## Area positivity -/

namespace Evap

lemma U_eff_pos (i : ℕ) (hi : i < 5) : 0 < U_eff i := by
  interval_cases i <;> norm_num [U_eff]

lemma dT_ge_one (e : In) (i : ℕ) : 1 ≤ dT e i := le_max_right _ _

lemma Q_pos (e : In) (h : valide e) (hF : 0 < e.F) (i : ℕ) : 0 < Q e i := by
  unfold Q
  exact mul_pos (div_pos (Vi_pos e h hF) (by norm_num)) (chaleur_pos _)

lemma A_pos (e : In) (h : valide e) (hF : 0 < e.F) (i : ℕ) (hi : i < e.n) :
    0 < A e i := by
  unfold A
  apply div_pos (Q_pos e h hF i)
  have hU : 0 < U_eff i := U_eff_pos i (lt_of_lt_of_le hi h.2.1)
  have := dT_ge_one e i
  nlinarith

lemma A_totale_pos (e : In) (h : valide e) (hF : 0 < e.F) :
    0 < A_totale e := by
  unfold A_totale
  apply Finset.sum_pos (fun i hi => A_pos e h hF i (Finset.mem_range.mp hi))
  refine ⟨0, Finset.mem_range.mpr ?_⟩
  have h2 := h.1
  omega

end Evap

lemma cfgA_valide : Evap.valide cfgA := by
  refine ⟨?_, ?_, ?_, ?_, ?_, ?_, ?_⟩ <;> norm_num [cfgA]

lemma cfgA_Fpos : 0 < cfgA.F := by norm_num [cfgA]

/- ## Claim C4: economy bounds -/

/-- C4 (amended): for every input accepted by validation whose feed flow
is positive, the steam economy satisfies `0 < E` and `E ≤ n`. (With
`F = 0`, which validation accepts, `E = 0` and the lower bound fails.) -/
theorem C4_economy_bounds (e : Evap.In) (h : Evap.valide e)
    (hF : 0 < e.F) : 0 < Evap.E e ∧ Evap.E e ≤ (e.n : ℝ) := by
  refine ⟨Evap.E_pos e h hF, ?_⟩
  have h2 := Evap.E_lt_two e h hF
  have hn : (2 : ℝ) ≤ (e.n : ℝ) := by exact_mod_cast h.1
  linarith

/-- Witness for C4: the bounds at scenario A (3 effects). -/
theorem C4_economy_bounds_witness :
    0 < Evap.E cfgA ∧ Evap.E cfgA ≤ 3 := by
  have h := C4_economy_bounds cfgA cfgA_valide cfgA_Fpos
  refine ⟨h.1, ?_⟩
  exact h.2.trans_eq (by norm_num [cfgA])

/-- Counterexample for C4 as frozen: `F = 0` passes validation, yet the
total duty, steam flow and hence the economy are all 0, violating
`E > 0`. -/
theorem C4_counterexample :
    Evap.valide cfgF0 ∧ ¬(0 < Evap.E cfgF0) := by
  constructor
  · refine ⟨?_, ?_, ?_, ?_, ?_, ?_, ?_⟩ <;> norm_num [cfgF0]
  · have hVt : Evap.Vtot cfgF0 = 0 := by
      norm_num [Evap.Vtot, Evap.Lout, cfgF0]
    have hVi : Evap.Vi cfgF0 = 0 := by
      rw [Evap.Vi, hVt]; norm_num
    have hQt : Evap.Qtot cfgF0 = 0 := by
      rw [Evap.Qtot]
      apply Finset.sum_eq_zero
      intro i _
      rw [Evap.Q, hVi]
      norm_num
    have hS : Evap.S cfgF0 = 0 := by
      rw [Evap.S, hQt]; norm_num
    have hE : Evap.E cfgF0 = 0 := by
      rw [Evap.E, hS]
      norm_num
    rw [hE]
    norm_num

/- ## Claim C5: scenario A -/

/-- Counterexample for C5 as frozen: at scenario A the economy is NOT
between 2.0 and 3.0 — the code charges the live steam with the entire
evaporation duty (no inter-effect vapor-reuse credit), so `E < 2`. -/
theorem C5_counterexample :
    Evap.valide cfgA ∧ ¬(2 ≤ Evap.E cfgA ∧ Evap.E cfgA ≤ 3) := by
  refine ⟨cfgA_valide, ?_⟩
  rintro ⟨h2, -⟩
  have := Evap.E_lt_two cfgA cfgA_valide cfgA_Fpos
  linarith

/-- C5 (amended): scenario A (F=20000 kg/h, xF=0.15, xout=0.65, 3
effects, 3.5 bar steam) returns a positive economy strictly below 2
(the uniform-split model derives the steam flow from the whole duty, so
the economy stays near `lambda_steam / mean(lambda_i) ≈ 1`) and a total
area strictly greater than 0. -/
theorem C5_scenarioA :
    0 < Evap.E cfgA ∧ Evap.E cfgA < 2 ∧ 0 < Evap.A_totale cfgA :=
  ⟨Evap.E_pos cfgA cfgA_valide cfgA_Fpos,
    Evap.E_lt_two cfgA cfgA_valide cfgA_Fpos,
    Evap.A_totale_pos cfgA cfgA_valide cfgA_Fpos⟩

/- ## Claim C2: scenario B -/

/-- Counterexample for C2 as frozen: `effect_count = 1` is rejected by
the constructor (supported range is 2..5), so no run with one effect
returns a result at all. -/
theorem C2_counterexample :
    Evap.mkEvap 20000 0.15 0.16 25 3.5 1 =
      Except.error "n_effets doit etre entre 2 et 5." := by
  norm_num [Evap.mkEvap]

/-- Scenario B inputs moved to the minimal supported effect count:
F=20000 kg/h, xF=0.15, xout=0.16, 2 effects, steam at 3.5 bar abs. -/
def cfgB : Evap.In := ⟨20000, 0.15, 0.16, 25, 3.5, 2⟩

/-- C2 (amended): `effect_count = 1` is rejected by validation; with the
minimal supported `effect_count = 2` and the same fractions
(feed 0.15 → outlet 0.16) the run completes with a very small total
vapor — 1250 kg/h, 6.25 % of the 20000 kg/h feed — and a
correspondingly small, positive steam flow (below 2500 kg/h). -/
theorem C2_minimal_concentration :
    Evap.Vtot cfgB = 1250 ∧ 0 < Evap.S cfgB ∧ Evap.S cfgB < 2500 := by
  have hval : Evap.valide cfgB := by
    refine ⟨?_, ?_, ?_, ?_, ?_, ?_, ?_⟩ <;> norm_num [cfgB]
  have hF : 0 < cfgB.F := by norm_num [cfgB]
  have hVt : Evap.Vtot cfgB = 1250 := by
    norm_num [Evap.Vtot, Evap.Lout, cfgB]
  refine ⟨hVt, Evap.S_pos cfgB hval hF, ?_⟩
  have hle := Evap.S_le cfgB hval hF
  rw [hVt] at hle
  have : (1250 : ℝ) * 2729500 / 1800000 < 2500 := by norm_num
  linarith

/- ## Claim C1: stage area and the driving temperature difference -/

/-- An input accepted by validation whose live steam is colder than the
first effect: steam at the 0.05 bar floor, effects at 2.5/0.15 bar. -/
def cfgC1 : Evap.In := ⟨20000, 0.15, 0.65, 25, 0.05, 2⟩

lemma cfgC1_valide : Evap.valide cfgC1 := by
  refine ⟨?_, ?_, ?_, ?_, ?_, ?_, ?_⟩ <;> norm_num [cfgC1]

lemma cfgC1_Fpos : 0 < cfgC1.F := by norm_num [cfgC1]

lemma exp_two_lt_twenty : Real.exp 2 < 20 := by
  have h1 : Real.exp 1 < 2.7182818286 := Real.exp_one_lt_d9
  have h2 : Real.exp 2 = Real.exp 1 * Real.exp 1 := by
    rw [← Real.exp_add]; norm_num
  nlinarith [Real.exp_pos 1]

lemma log_fivehundredths_lt : Real.log 0.05 < -2 := by
  rw [Real.log_lt_iff_lt_exp (by norm_num : (0:ℝ) < 0.05)]
  rw [show (-2 : ℝ) = -(2 : ℝ) by norm_num, Real.exp_neg]
  have hpos : (0 : ℝ) < Real.exp 2 := Real.exp_pos 2
  have hinv : (Real.exp 2)⁻¹ * Real.exp 2 = 1 :=
    inv_mul_cancel₀ (ne_of_gt hpos)
  nlinarith [exp_two_lt_twenty]

lemma cfgC1_x0 : Evap.x cfgC1 0 = 39 / 160 := by
  show cfgC1.F * cfgC1.xF / Evap.L cfgC1 0 = 39 / 160
  rw [show Evap.L cfgC1 0 = cfgC1.F - Evap.Vi cfgC1 from rfl]
  norm_num [Evap.Vi, Evap.Vtot, Evap.Lout, cfgC1]

lemma cfgC1_rawdT0_neg : Evap.rawdT cfgC1 0 < 0 := by
  have hepe : 0 ≤ EPE_duhring (39 / 160) := by
    simp only [EPE_duhring]
    norm_num
  have hlog05 := log_fivehundredths_lt
  have hlog25 : 0 < Real.log 2.5 := Real.log_pos (by norm_num)
  have hmax1 : max (0.05 : ℝ) 0.05 = 0.05 := max_self _
  have hmax2 : max (2.5 : ℝ) 0.05 = 2.5 := by norm_num
  have hP : Evap.P_eff cfgC1 0 = 2.5 := by
    norm_num [Evap.P_eff, cfgC1]
  rw [Evap.rawdT, if_pos rfl, Evap.Tsteam, Evap.Teb, Teb_solution, hP,
    cfgC1_x0]
  show Tsat_eau cfgC1.Psteam + 10 -
    (Tsat_eau 2.5 + EPE_duhring (39 / 160)) < 0
  rw [show cfgC1.Psteam = (0.05 : ℝ) from rfl]
  rw [Tsat_eau, Tsat_eau, Tsat_from_Pbar, Tsat_from_Pbar, hmax1, hmax2]
  linarith

/-- Counterexample for C1 as frozen: with steam at the 0.05 bar pressure
floor (an input validation accepts) the first effect's driving
difference is negative, so the spec's log-mean driving force is
degenerate and the claimed area is 0 — but the code floors the
difference at 1 °C and returns a strictly positive area. -/
theorem C1_counterexample :
    Evap.valide cfgC1 ∧
    lmtd (Evap.rawdT cfgC1 0) (Evap.rawdT cfgC1 0) = 0 ∧
    Evap.claimedArea cfgC1 0 = 0 ∧
    Evap.A cfgC1 0 ≠ Evap.claimedArea cfgC1 0 := by
  have hlm : lmtd (Evap.rawdT cfgC1 0) (Evap.rawdT cfgC1 0) = 0 :=
    lmtd_of_nonpos _ _ (Or.inl (le_of_lt cfgC1_rawdT0_neg))
  have hca : Evap.claimedArea cfgC1 0 = 0 := by
    rw [Evap.claimedArea]
    simp only [hlm]
    norm_num
  have hA : 0 < Evap.A cfgC1 0 :=
    Evap.A_pos cfgC1 cfgC1_valide cfgC1_Fpos 0 (by norm_num [cfgC1])
  refine ⟨cfgC1_valide, hlm, hca, ?_⟩
  rw [hca]
  exact ne_of_gt hA

/-- C1 (amended): for every stage of a validated run with positive feed,
the stage area equals the stage duty divided by
`U_i * max(raw difference, 1.0)` — the plain temperature difference
floored at 1 °C, not the log-mean — so the area is always strictly
positive, and in particular a degenerate (≤ 0, hence ≤ 1) raw
difference yields the positive area `Q_i / U_i`, not zero; the result
is still returned. -/
theorem C1_area_formula (e : Evap.In) (h : Evap.valide e) (hF : 0 < e.F)
    (i : ℕ) (hi : i < e.n) :
    Evap.A e i = Evap.Q e i / (Evap.U_eff i * max (Evap.rawdT e i) 1) ∧
    0 < Evap.A e i ∧
    (Evap.rawdT e i ≤ 1 → Evap.A e i = Evap.Q e i / Evap.U_eff i) := by
  refine ⟨rfl, Evap.A_pos e h hF i hi, fun hle => ?_⟩
  rw [Evap.A, Evap.dT, max_eq_right hle, mul_one]

/-- Witness for C1: the amended claim applied to the degenerate first
stage of `cfgC1`. -/
theorem C1_area_formula_witness :
    0 < Evap.A cfgC1 0 ∧ Evap.A cfgC1 0 = Evap.Q cfgC1 0 / Evap.U_eff 0 := by
  have h := C1_area_formula cfgC1 cfgC1_valide cfgC1_Fpos 0
    (by norm_num [cfgC1])
  exact ⟨h.2.1, h.2.2 (le_of_lt (lt_trans cfgC1_rawdT0_neg (by norm_num)))⟩

/- ## Batch crystallizer (`cristallisation.py`) -/

/-- Embeds `solubilite`: cubic solubility correlation, T in °C. -/
noncomputable def solubilite (T : ℝ) : ℝ :=
  64.18 + 0.1337 * T + 5.52e-3 * T ^ 2 - 9.73e-6 * T ^ 3

/-- Embeds `sursaturation`: supersaturation clamped to non-negative. -/
noncomputable def sursaturation (C Cs : ℝ) : ℝ := max ((C - Cs) / Cs) 0

/-- Embeds `nucleation`: `kb * S**b * max(mT, 1e-12)**j` with
`kb=1.5e10, b=2.5, j=0.5`. -/
noncomputable def nucleation (S mT : ℝ) : ℝ :=
  1.5e10 * S ^ (2.5 : ℝ) * max mT 1e-12 ^ (0.5 : ℝ)

/-- Embeds `croissance`: `kg * S**g * exp(-Eg/(R*(T+273.15)))` with
`kg=2.8e-7, g=1.5, R=8.314, Eg=45000`. -/
noncomputable def croissance (S T : ℝ) : ℝ :=
  2.8e-7 * S ^ (1.5 : ℝ) * Real.exp (-45000 / (8.314 * (T + 273.15)))

/-- The fixed size grid `np.linspace(0, 8e-4, 80)`. -/
noncomputable def Lgrid (i : Fin 80) : ℝ := 8e-4 * (i : ℝ) / 79

/-- The grid spacing `dL = L[1] - L[0]`. -/
noncomputable def dL : ℝ := 8e-4 / 79

/-- Embeds `trapz_robuste` specialized to the fixed `N = 80` grid (the only
size the engine uses): `sum(0.5*(y[:-1]+y[1:])*diff(x))`. -/
noncomputable def trapz80 (y x : Fin 80 → ℝ) : ℝ :=
  ∑ i : Fin 79, 0.5 * (y i.castSucc + y i.succ) * (x i.succ - x i.castSucc)

/-- Embeds `moments`: mean length and coefficient of variation from the 0th,
1st and 2nd moments; `(0,0)` when the 0th moment is ≤ 0. -/
noncomputable def moments (nn : Fin 80 → ℝ) : ℝ × ℝ :=
  let m0 := trapz80 nn Lgrid
  let m1 := trapz80 (fun i => Lgrid i * nn i) Lgrid
  let m2 := trapz80 (fun i => Lgrid i ^ 2 * nn i) Lgrid
  if m0 ≤ 0 then (0, 0)
  else
    let Lmean := m1 / m0
    let varL := max (m2 / m0 - Lmean ^ 2) 0
    let CV := if 0 < Lmean then Real.sqrt varL / Lmean else 0
    (Lmean, CV)

/-- The first-order upwind update of `simuler_cristallisation_batch`:
`n_new[i] = n[i] - dt*G*(n[i]-n[i-1])/dL` for `i ≥ 1`, and the
boundary reseed `n_new[0] = B / max(G, 1e-12)`. -/
noncomputable def upwind (dist : Fin 80 → ℝ) (B G dt : ℝ) :
    Fin 80 → ℝ := fun i =>
  if i.val = 0 then B / max G 1e-12
  else dist i - dt * G *
    (dist i - dist ⟨i.val - 1, lt_of_le_of_lt (Nat.sub_le _ _) i.isLt⟩) / dL

/-- The crystallizer's working state: the number-density array and the
scalar concentration and temperature. -/
structure CState where
  dist : Fin 80 → ℝ
  C : ℝ
  T : ℝ

/-- One iteration of the time loop of `simuler_cristallisation_batch`
at loop time `t`: supersaturation, kinetics, the (clamped) upwind
transport when `G > 0`, the concentration depletion floored at the
solubility, and the selected cooling profile. -/
noncomputable def stepCr (T_init duree dt : ℝ) (profil : String)
    (s : CState) (t : ℝ) : CState :=
  let Cs := solubilite s.T
  let S := sursaturation s.C Cs
  let mT := trapz80 (fun i => Lgrid i ^ 3 * s.dist i) Lgrid
  let B := nucleation S mT
  let G := croissance S s.T
  let dist' := if 0 < G then fun i => max (upwind s.dist B G dt i) 0
    else s.dist
  let C' := max (s.C - 0.02 * S * dt / 60) Cs
  let T' :=
    if profil = "lineaire" then
      T_init - (T_init - 35) * (t / max duree 1e-12)
    else if profil = "expo" then
      35 + (T_init - 35) * Real.exp (-0.003 * t)
    else max (s.T - 0.3 * (S - 0.05)) 35
  ⟨dist', C', T'⟩

/-- The trajectory of the run: state after `k` loop iterations, started
from the unseeded (all-zero) distribution, with loop times
`t_k = k * dt` as generated by `np.arange(0, duree + dt, dt)`. -/
noncomputable def traj (C_init T_init duree dt : ℝ) (profil : String) :
    ℕ → CState
  | 0 => ⟨fun _ => 0, C_init, T_init⟩
  | k + 1 => stepCr T_init duree dt profil
      (traj C_init T_init duree dt profil k) ((k : ℝ) * dt)

/-- The supersaturation recorded at iteration `k` (computed at the top
of the loop from the current state). -/
noncomputable def Srec (C_init T_init duree dt : ℝ) (profil : String)
    (k : ℕ) : ℝ :=
  sursaturation (traj C_init T_init duree dt profil k).C
    (solubilite (traj C_init T_init duree dt profil k).T)

/-- The number of loop iterations, `len(np.arange(0, duree+dt, dt))`. -/
noncomputable def nSteps (duree dt : ℝ) : ℕ := ⌈(duree + dt) / dt⌉₊

/-- The history row recorded at iteration `k`: `t`, the updated `T` and
`C`, the pre-update `S` and `Cs`, and the updated distribution's
moments. -/
noncomputable def histEntry (C_init T_init duree dt : ℝ)
    (profil : String) (k : ℕ) : ℝ × ℝ × ℝ × ℝ × ℝ × ℝ × ℝ :=
  let s := traj C_init T_init duree dt profil k
  let s₁ := traj C_init T_init duree dt profil (k + 1)
  let m := moments s₁.dist
  ((k : ℝ) * dt, s₁.T, sursaturation s.C (solubilite s.T), s₁.C,
    solubilite s.T, m.1, m.2)

/-- Embeds `simuler_cristallisation_batch(M, C_init, T_init, duree, dt,
profil)`: returns the length grid, the final number-density
distribution, and the full history. -/
noncomputable def simuler_cristallisation_batch
    (M C_init T_init duree dt : ℝ) (profil : String) :
    (Fin 80 → ℝ) × (Fin 80 → ℝ) ×
      List (ℝ × ℝ × ℝ × ℝ × ℝ × ℝ × ℝ) :=
  (Lgrid, (traj C_init T_init duree dt profil (nSteps duree dt)).dist,
    (List.range (nSteps duree dt)).map
      (histEntry C_init T_init duree dt profil))

/- ## Claim C8: non-negativity of the distribution -/

lemma stepCr_dist_nonneg (T_init duree dt : ℝ) (profil : String)
    (s : CState) (t : ℝ) (hs : ∀ i, 0 ≤ s.dist i) :
    ∀ i, 0 ≤ (stepCr T_init duree dt profil s t).dist i := by
  intro i
  simp only [stepCr]
  split_ifs with h
  · exact le_max_right _ _
  · exact hs i

/-- C8: at every iteration of every crystallizer run — any initial
concentration/temperature, any duration and step, any cooling profile —
every entry of the number-density array is non-negative: the clamp
`maximum(n_new, 0)` repairs any negative value the upwind update
produces, the distribution is untouched on iterations with `G ≤ 0`, and
the run starts from the all-zero unseeded distribution. -/
theorem C8_distribution_nonneg (C_init T_init duree dt : ℝ)
    (profil : String) (k : ℕ) (i : Fin 80) :
    0 ≤ (traj C_init T_init duree dt profil k).dist i := by
  induction k generalizing i with
  | zero => simp [traj]
  | succ k ih =>
    exact stepCr_dist_nonneg T_init duree dt profil _ _ (fun j => ih j) i

/- ## Claim C9: undersaturated start -/

lemma sursaturation_eq_zero (C Cs : ℝ) (h1 : C ≤ Cs) (h2 : 0 < Cs) :
    sursaturation C Cs = 0 := by
  unfold sursaturation
  apply max_eq_right
  apply div_nonpos_of_nonpos_of_nonneg (by linarith) (le_of_lt h2)

lemma croissance_zero (T : ℝ) : croissance 0 T = 0 := by
  unfold croissance
  rw [Real.zero_rpow (by norm_num : (1.5 : ℝ) ≠ 0)]
  ring

lemma stepCr_dist_of_S_zero (T_init duree dt : ℝ) (profil : String)
    (s : CState) (t : ℝ)
    (h : sursaturation s.C (solubilite s.T) = 0) :
    (stepCr T_init duree dt profil s t).dist = s.dist := by
  simp only [stepCr]
  rw [h, croissance_zero]
  rw [if_neg (lt_irrefl 0)]

/-- C9: for any run and any cooling profile, as long as the
concentration stays at or below the (positive) solubility — in
particular from an undersaturated start — the recorded supersaturation
is 0 at every such iteration and the distribution stays the all-zero
unseeded one; only after the concentration exceeds the solubility can
`S` become positive. -/
theorem C9_undersaturated (C_init T_init duree dt : ℝ) (profil : String)
    (k : ℕ)
    (h : ∀ j, j ≤ k →
      (traj C_init T_init duree dt profil j).C ≤
        solubilite (traj C_init T_init duree dt profil j).T ∧
      0 < solubilite (traj C_init T_init duree dt profil j).T) :
    ∀ j, j ≤ k → Srec C_init T_init duree dt profil j = 0 ∧
      (traj C_init T_init duree dt profil (j + 1)).dist =
        fun _ => 0 := by
  intro j
  induction j with
  | zero =>
    intro hj
    have hS : Srec C_init T_init duree dt profil 0 = 0 :=
      sursaturation_eq_zero _ _ (h 0 (Nat.zero_le k)).1
        (h 0 (Nat.zero_le k)).2
    refine ⟨hS, ?_⟩
    calc (traj C_init T_init duree dt profil 1).dist
        = (traj C_init T_init duree dt profil 0).dist :=
          stepCr_dist_of_S_zero _ _ _ _ _ _ hS
      _ = fun _ => 0 := rfl
  | succ j ihj =>
    intro hj
    obtain ⟨-, ihd⟩ := ihj (Nat.le_of_succ_le hj)
    have hS : Srec C_init T_init duree dt profil (j + 1) = 0 :=
      sursaturation_eq_zero _ _ (h (j + 1) hj).1 (h (j + 1) hj).2
    refine ⟨hS, ?_⟩
    calc (traj C_init T_init duree dt profil (j + 2)).dist
        = (traj C_init T_init duree dt profil (j + 1)).dist :=
          stepCr_dist_of_S_zero _ _ _ _ _ _ hS
      _ = fun _ => 0 := ihd

/-- Witness for C9: a concrete undersaturated start — C=90 g/100 g at
70 °C, where the solubility is 97.24961 — recorded `S = 0` at the first
iteration and an untouched all-zero distribution after it. -/
theorem C9_undersaturated_witness :
    ((traj 90 70 600 60 "lineaire" 0).C ≤
        solubilite (traj 90 70 600 60 "lineaire" 0).T ∧
      0 < solubilite (traj 90 70 600 60 "lineaire" 0).T) ∧
    Srec 90 70 600 60 "lineaire" 0 = 0 ∧
    (traj 90 70 600 60 "lineaire" 1).dist = fun _ => 0 := by
  have hyp : ∀ j, j ≤ 0 →
      (traj 90 70 600 60 "lineaire" j).C ≤
        solubilite (traj 90 70 600 60 "lineaire" j).T ∧
      0 < solubilite (traj 90 70 600 60 "lineaire" j).T := by
    intro j hj
    rcases Nat.le_zero.mp hj with rfl
    constructor
    · show (90 : ℝ) ≤ solubilite 70
      norm_num [solubilite]
    · show (0 : ℝ) < solubilite 70
      norm_num [solubilite]
  exact ⟨hyp 0 le_rfl,
    C9_undersaturated 90 70 600 60 "lineaire" 0 hyp 0 le_rfl⟩

/- ## Claim C10: the result is independent of the mass argument -/

/-- C10: the crystallizer run's entire output — length grid, final
distribution and full history — does not depend on the `M` argument:
two runs identical in every other input return identical results. -/
theorem C10_mass_independent (M M' C_init T_init duree dt : ℝ)
    (profil : String) :
    simuler_cristallisation_batch M C_init T_init duree dt profil =
      simuler_cristallisation_batch M' C_init T_init duree dt profil :=
  rfl
